import Mathlib

/-!
Verification of the raspi-gpio-lightswitch state machine engine.

Shallow embedding of the core of `raspi-gpio-lightswitch.py`
(class RaspiGPIOLightSwitch): the transition table `STATES`, the action
table `ACTIONS`, state resolution `getNextStateNumber`, action dispatch
`setNextState`, the event entry point `handleButtonEvent`, the action
functions `actionOff` / `actionOn` / `actionDim`, dim-state restoration
`readStateFile`, and the configuration functions `getDimmingConfig` and
`createAndConfigureLight`.

Python floats are embedded as rationals (all arithmetic of the claims is
exact), Python dictionaries as association lists, Python tuples/lists as
Lean lists, mutation of the object fields as explicit state passing on a
record `SwitchState`.  Exceptions that the source catches are modelled by
the value the handler leaves behind (e.g. a missing dictionary key in
`getNextStateNumber` yields -1).  Light output and state-file writes are
recorded in the `lightValue` and `stateFileWrites` fields so that the
externally visible effects of each action are observable.
-/

namespace LightSwitch

/-- The state transition matrix `STATES` of the source, indexed by
dimMode, then eventMode, then source status dictionaries (one per event
kind: release, press, and hold for dimMode 2); each dictionary maps a
current state to a target state (9 is the dynamically resolved value). -/
def STATES : List (List (List (List (Nat × Nat)))) :=
  [ [ [[(1, 2), (3, 0)], [(0, 1), (2, 3)]],
      [[(1, 0), (3, 2)], [(0, 3), (2, 1)]],
      [[(1, 2), (4, 0)], [(0, 1), (2, 4)]],
      [[(3, 2), (5, 0)], [(0, 3), (2, 5)]] ],
    [ [[(1, 2), (3, 0)], [(0, 1), (2, 9)]],
      [[(1, 9), (3, 2)], [(0, 3), (2, 1)]],
      [[(1, 2), (4, 0)], [(0, 1), (2, 9)]],
      [[(1, 2), (3, 2), (5, 0)], [(0, 3), (2, 9)]] ],
    [ [[(1, 2), (3, 0), (6, 2), (7, 0)], [(0, 1), (2, 3)], [(1, 6), (3, 7), (6, 6), (7, 7)]],
      [[(1, 0), (3, 2), (6, 2)], [(0, 3), (2, 1)], [(1, 6), (3, 6), (6, 6)]],
      [[(1, 2), (4, 0), (6, 2)], [(0, 1), (2, 4)], [(1, 6), (4, 6), (6, 6)]],
      [[(3, 2), (5, 0), (6, 2), (7, 0)], [(0, 3), (2, 5)], [(3, 6), (5, 7), (6, 6), (7, 7)]] ] ]

/-- The action matrix `ACTIONS` of the source, indexed by dimMode, then
eventMode, then target status.  `some (-1)` is no action, `some 0` light
off, `some 1` light on/restore, `some 2` dim step, `none` is the
undefined marker (Python `None`). -/
def ACTIONS : List (List (List (Option Int))) :=
  [ [ [some (-1), some 1, some (-1), some 0, none, none, none, none],
      [some 0, some (-1), some 1, some (-1), none, none, none, none],
      [some 0, some 1, some (-1), none, some (-1), none, none, none],
      [some (-1), none, some 1, some (-1), none, some 0, none, none] ],
    [ [some (-1), some 2, some (-1), some 0, none, none, none, none],
      [some 0, some (-1), some 2, some (-1), none, none, none, none],
      [some 0, some 2, some (-1), none, some (-1), none, none, none],
      [some (-1), some (-1), some 2, some (-1), none, some 0, none, none] ],
    [ [some (-1), some 1, some (-1), some 0, none, none, some 2, some (-1)],
      [some 0, some (-1), some 1, some (-1), none, none, some 2, none],
      [some 0, some 1, some (-1), none, some (-1), none, some 2, none],
      [some (-1), none, some 1, some (-1), none, some 0, some 2, some (-1)] ] ]

/-- The mutable fields of a `RaspiGPIOLightSwitch` object that the engine
reads or writes, plus the observable effect log: `lightValue` is the last
value passed to `setLightToLevel` and `stateFileWrites` the sequence of
values written by `writeStateFile` (oldest first); `actionsRun` records
the action functions invoked (0 off / 1 on / 2 dim, oldest first). -/
structure SwitchState where
  dimMode : Nat
  eventMode : Nat
  dimLevels : Int
  dimStep : ℚ
  dimIndex : ℚ
  currentState : Nat
  lightValue : ℚ
  stateFileWrites : List ℚ
  actionsRun : List Int
  deriving Repr, DecidableEq

/-- Lookup `self._stateMachine[0][event][current]`: selects the
transition dictionaries for `(dimMode, eventMode)`, then the dictionary
for the event kind, then the entry for the current state.  `none` models
the `IndexError`/`KeyError` that `getNextStateNumber` catches. -/
def lookupTransition (dimMode eventMode event current : Nat) : Option Nat :=
  (((STATES.get? dimMode).bind (fun a => a.get? eventMode)).bind
      (fun a => a.get? event)).bind
    (fun dict => dict.lookup current)

/-- Lookup `self._stateMachine[1][next_state]`: the action entry for the
target state.  The outer `Option` models an out-of-range index (an
exception caught by `setNextState`); the inner `Option Int` is the table
entry itself, with `none` the undefined marker. -/
def lookupAction (dimMode eventMode target : Nat) : Option (Option Int) :=
  ((ACTIONS.get? dimMode).bind (fun a => a.get? eventMode)).bind
    (fun a => a.get? target)

/-- `setLightToLevel`: drives the light output to the requested level.
(The optional brightness-correction exponent is applied downstream of
this level and is the identity for exponent 1.) -/
def setLightToLevel (s : SwitchState) (newValue : ℚ) : SwitchState :=
  { s with lightValue := newValue }

/-- `writeStateFile`: writes the current dim level index to the state
file, modelled by appending it to the write log. -/
def writeStateFile (s : SwitchState) : SwitchState :=
  { s with stateFileWrites := s.stateFileWrites ++ [s.dimIndex] }

/-- `actionOff`: switch the light off. -/
def actionOff (s : SwitchState) : SwitchState :=
  setLightToLevel s 0

/-- The value computed by both `actionOn` and `actionDim` from the
current dim index: `dimIndex * dimStep` when `dimStep > 0`, otherwise
`1.0 + (dimIndex - 1) * dimStep`. -/
def onValue (s : SwitchState) : ℚ :=
  if s.dimStep > 0 then s.dimIndex * s.dimStep
  else 1 + (s.dimIndex - 1) * s.dimStep

/-- `actionOn`: switch the light on, restoring the previous dim level. -/
def actionOn (s : SwitchState) : SwitchState :=
  setLightToLevel s (onValue s)

/-- `actionDim`: advance `dimIndex` by one, wrapping back to 1 when it
exceeds `dimLevels`; drive the light to the resulting value; when
`dimMode == 2` also write the state file. -/
def actionDim (s : SwitchState) : SwitchState :=
  let s := { s with dimIndex := s.dimIndex + 1 }
  let s := if s.dimIndex > (s.dimLevels : ℚ) then { s with dimIndex := 1 } else s
  let s := setLightToLevel s (onValue s)
  if s.dimMode = 2 then writeStateFile s else s

/-- `getNextStateNumber`: the next state number for a button event and
the current state, together with the dim index the method leaves behind
(the source mutates `self._dimIndex` in the dynamic-resolution branch).
A missing table entry raises and the handler returns -1; in the
dynamic-resolution off branch the dictionary `{0:3,1:0,2:4,3:5}` is read
before `dimIndex` is reset, so a missing key there also yields -1 with
`dimIndex` unchanged. -/
def getNextStateNumber (s : SwitchState) (event : Nat) : Int × ℚ :=
  match lookupTransition s.dimMode s.eventMode event s.currentState with
  | none => (-1, s.dimIndex)
  | some next_temp =>
    if next_temp = 9 then
      if s.dimIndex < (s.dimLevels : ℚ) then
        (((if s.eventMode = 1 then 2 else 1) : Int), s.dimIndex)
      else
        match List.lookup s.eventMode [(0, 3), (1, 0), (2, 4), (3, 5)] with
        | some t => ((t : Int), 0)
        | none => (-1, s.dimIndex)
    else ((next_temp : Int), s.dimIndex)

/-- `setNextState`: look up the action for the requested next state, run
it when it is a real action (0/1/2), and commit the next state.  An
undefined (`None`) entry, an out-of-range state, or an action code
outside the actions list raises, and the handler resets the current
state to 0. -/
def setNextState (s : SwitchState) (next : Nat) : SwitchState :=
  match lookupAction s.dimMode s.eventMode next with
  | some (some a) =>
    if a < 0 then { s with currentState := next }
    else if a = 0 then { actionOff { s with actionsRun := s.actionsRun ++ [0] } with currentState := next }
    else if a = 1 then { actionOn { s with actionsRun := s.actionsRun ++ [1] } with currentState := next }
    else if a = 2 then { actionDim { s with actionsRun := s.actionsRun ++ [2] } with currentState := next }
    else { s with currentState := 0 }
  | _ => { s with currentState := 0 }

/-- `handleButtonEvent`: the general handler for one button event.  The
next state is computed (possibly updating `dimIndex` through dynamic
resolution); a non-negative result is dispatched through `setNextState`,
otherwise the current state is reset to 0. -/
def handleButtonEvent (s : SwitchState) (event : Nat) : SwitchState :=
  let r := getNextStateNumber s event
  let s := { s with dimIndex := r.2 }
  if r.1 ≥ 0 then setNextState s r.1.toNat
  else { s with currentState := 0 }

/-- Run a sequence of button events through `handleButtonEvent`. -/
def runEvents (s : SwitchState) (events : List Nat) : SwitchState :=
  events.foldl handleButtonEvent s

/-- `readStateFile`: restore the dim index when `dimMode` is 2.  The
file argument models the state file: `none` when the file does not
exist (default to `dimLevels`, i.e. 100%), `some none` when reading or
parsing raises (caught, `dimIndex` untouched), `some (some v)` when the
file holds the value `v` (clamped from above to `dimLevels`). -/
def readStateFile (s : SwitchState) (file : Option (Option ℚ)) : SwitchState :=
  if s.dimMode < 2 then s
  else
    match file with
    | none => { s with dimIndex := (s.dimLevels : ℚ) }
    | some none => s
    | some (some v) =>
      { s with dimIndex := if v > (s.dimLevels : ℚ) then (s.dimLevels : ℚ) else v }

/-- The dim-related defaults set by `initGPIO` before an optional Dim
configuration is processed (plain on/off operation keeps them). -/
def initDimDefaults (s : SwitchState) : SwitchState :=
  { s with dimMode := 0, dimIndex := 1, dimLevels := 1, dimStep := 1 }

/-- The dim-related configuration fields mutated by `getDimmingConfig`
and its helpers. -/
structure DimState where
  dimMode : Int
  dimLevels : Int
  dimStep : ℚ
  dimIndex : ℚ
  dimHoldSec : ℚ
  deriving Repr, DecidableEq

/-- `checkDimModeRange`: dimMode must lie in 0...2. -/
def checkDimModeRange (dimMode : Int) : Bool :=
  if dimMode > 2 ∨ dimMode < 0 then false else true

/-- `checkDimConfigParamCount`: the number of Dim parameters allowed for
the selected dimMode. -/
def checkDimConfigParamCount (dimMode : Int) (dimConfigLen : Nat) : Bool :=
  if (dimMode = 0 ∧ dimConfigLen > 1) ∨ ((dimConfigLen : Int) > dimMode + 2) then false
  else true

/-- `configureDimLevels`: the number of dim levels from the second Dim
parameter when present, with any configured value ≤ 1 replaced by the
default 3; also derives the step size and resets the dim index.  The
source function has no failure path. -/
def configureDimLevels (dimConfig : List Int) (st : DimState) : DimState :=
  let lv : Int :=
    match dimConfig with
    | _ :: l :: _ => if l ≤ 1 then 3 else l
    | _ => 3
  { st with dimLevels := lv, dimStep := 1 / (lv : ℚ), dimIndex := 0 }

/-- `getDimmingConfig`: process the split Dim option.  The configuration
tokens are modelled as the parsed integers; a direction token
(`dimConfig[2]`, a word compared against "up"/"dn") is not an integer,
so in this numeric model any configuration longer than 2 fails the
direction validation, and the hold-time branch keeps its default 1.5.
`none` models a `False` return (configuration rejected). -/
def getDimmingConfig (dimConfig : List Int) (st : DimState) : Option DimState :=
  match dimConfig with
  | [] => none
  | dimMode :: _ =>
    let st := { st with dimMode := dimMode }
    if ¬ checkDimModeRange dimMode then none
    else if ¬ checkDimConfigParamCount dimMode dimConfig.length then none
    else if dimMode = 0 then some st
    else
      let st := configureDimLevels dimConfig st
      if dimConfig.length > 2 then none
      else some { st with dimHoldSec := 3 / 2 }

/-- `createAndConfigureLight`, restricted to the brightness-correction
exponent it validates: one light parameter means exponent 1.0, two mean
the second is the exponent, rejected when below 1; more than two
parameters are rejected.  `none` models a `False` return. -/
def createAndConfigureLight (lightConfig : List ℚ) : Option ℚ :=
  match lightConfig with
  | [_pin] => some 1
  | [_pin, linExp] => if linExp < 1 then none else some linExp
  | _ => none

/-- The `DimState` corresponding to the `initGPIO` defaults. -/
def initDimState : DimState :=
  { dimMode := 0, dimLevels := 1, dimStep := 1, dimIndex := 1, dimHoldSec := 3 / 2 }

/-- The target state the dynamic-resolution sentinel resolves to while
dimming continues, and the event-mode-specific off states, as read off
from `getNextStateNumber`: used to state reachability of action-table
entries.  A transition-table value of 9 resolves to one of its two
possible targets; any other value is the target itself. -/
def resolveTargets (eventMode t : Nat) : List Nat :=
  if t = 9 then
    [if eventMode = 1 then 2 else 1] ++
      (match List.lookup eventMode [(0, 3), (1, 0), (2, 4), (3, 5)] with
       | some x => [x]
       | none => [])
  else [t]

/-- All states reachable as targets of the transition table for a
`(dimMode, eventMode)` pair, with the sentinel replaced by its two
possible resolutions. -/
def tableTargets (dimMode eventMode : Nat) : List Nat :=
  match (STATES.get? dimMode).bind (fun a => a.get? eventMode) with
  | none => []
  | some dicts =>
    (dicts.flatMap (fun dict => dict.map Prod.snd)).flatMap (resolveTargets eventMode)

/-- The action-table entry for a target state is defined: present and
not the undefined marker. -/
def actionDefined (dimMode eventMode target : Nat) : Bool :=
  match lookupAction dimMode eventMode target with
  | some (some _) => true
  | _ => false

/-- The on-restore output value as the specification document states it
(for comparison with the source's `actionOn`): for positive direction
dimIndex/levelCount, for negative direction
1 - (levelCount - dimIndex)/levelCount. -/
def specOnValue (stepSign : Int) (dimIndex levelCount : ℚ) : ℚ :=
  if stepSign > 0 then dimIndex / levelCount
  else 1 - (levelCount - dimIndex) / levelCount

/-- A concrete engine state used by several concrete results: dimMode 1
(press-cycled dimming), eventMode 0 (press), 3 dim levels, step +1/3,
initial state 0 with dim index 0. -/
def demoState : SwitchState :=
  { dimMode := 1, eventMode := 0, dimLevels := 3, dimStep := 1 / 3, dimIndex := 0,
    currentState := 0, lightValue := 0, stateFileWrites := [], actionsRun := [] }

/-! ## Helper lemmas -/

/-- The dim index after `actionDim`: incremented, wrapping to 1 past
`dimLevels`. -/
theorem actionDim_dimIndex (s : SwitchState) :
    (actionDim s).dimIndex =
      if s.dimIndex + 1 > (s.dimLevels : ℚ) then 1 else s.dimIndex + 1 := by
  unfold actionDim setLightToLevel writeStateFile
  dsimp only
  split <;> split <;> rfl

/-- The state-file writes after `actionDim`: the new dim index is
appended exactly when dimMode is 2. -/
theorem actionDim_writes (s : SwitchState) :
    (actionDim s).stateFileWrites =
      if s.dimMode = 2 then s.stateFileWrites ++ [(actionDim s).dimIndex]
      else s.stateFileWrites := by
  unfold actionDim setLightToLevel writeStateFile
  dsimp only
  split <;> split <;> rfl

/-! ## Claims -/

/-- Claim C1: whenever the transition lookup yields the
dynamic-resolution sentinel 9, `getNextStateNumber` resolves it from dim
progress: while `dimIndex < levelCount` the next state is the continue
dimming state of the event mode (2 for eventMode 1, otherwise 1) and the
dim index is unchanged; once `dimIndex >= levelCount` the next state is
the event-mode-specific off state (3/0/4/5 for eventMode 0/1/2/3) and
the dim index is reset to 0. -/
theorem sentinelResolution (s : SwitchState) (event : Nat)
    (h9 : lookupTransition s.dimMode s.eventMode event s.currentState = some 9)
    (he : s.eventMode < 4) :
    (s.dimIndex < (s.dimLevels : ℚ) →
      getNextStateNumber s event =
        (((if s.eventMode = 1 then 2 else 1) : Int), s.dimIndex)) ∧
    (¬ s.dimIndex < (s.dimLevels : ℚ) →
      getNextStateNumber s event =
        (((if s.eventMode = 0 then 3
            else if s.eventMode = 1 then 0
            else if s.eventMode = 2 then 4 else 5) : Int), 0)) := by
  unfold getNextStateNumber
  rw [h9]
  constructor
  · intro h
    simp [h]
  · intro h
    have he4 : s.eventMode = 0 ∨ s.eventMode = 1 ∨ s.eventMode = 2 ∨ s.eventMode = 3 := by
      omega
    rcases he4 with h0 | h0 | h0 | h0 <;> simp [h, h0, List.lookup]

/-- Witness for C1 at a concrete input: in dimMode 1, eventMode 0, a
press in state 2 hits the sentinel, and with dimIndex 1 below
levelCount 3 it resolves to state 1 keeping the dim index. -/
theorem sentinelResolution_witness :
    lookupTransition 1 0 1 2 = some 9 ∧
    getNextStateNumber { demoState with dimIndex := 1, currentState := 2 } 1 = (1, 1) := by
  refine ⟨by decide, ?_⟩
  have h := (sentinelResolution { demoState with dimIndex := 1, currentState := 2 } 1
      (by decide) (by decide)).1 (by with_unfolding_all decide)
  simpa using h

/-- Claim C2: for every supported dimMode (0...2) and eventMode (0...3),
every target state reachable from the transition table, with the
sentinel 9 replaced by its two possible resolutions, has an action-table
entry that is not the undefined marker. -/
theorem reachableActionsDefined :
    ∀ d, d < 3 → ∀ e, e < 4 →
      (tableTargets d e).all (fun t => actionDefined d e t) = true := by decide

/-- Witness for C2 at dimMode 1, eventMode 0. -/
theorem reachableActionsDefined_witness :
    (tableTargets 1 0).all (fun t => actionDefined 1 0 t) = true :=
  reachableActionsDefined 1 (by decide) 0 (by decide)

/-- Counterexample to C3 as stated: with dimMode 0, eventMode 0, the
release event in state 2 has no transition entry, yet
`handleButtonEvent` is not a no-op on the state: it resets the current
state from 2 to 0. -/
theorem noEntryNoOp_cex :
    lookupTransition 0 0 0 2 = none ∧
    (handleButtonEvent { demoState with dimMode := 0, dimIndex := 1, currentState := 2 }
        0).currentState = 0 ∧
    ¬ (handleButtonEvent { demoState with dimMode := 0, dimIndex := 1, currentState := 2 }
        0).currentState =
      ({ demoState with dimMode := 0, dimIndex := 1, currentState := 2 } :
        SwitchState).currentState := by
  with_unfolding_all decide

/-- Claim C3 amended: when the transition table has no entry for the
event and current state, `handleButtonEvent` performs no action, leaves
the dim index, the light output and the persistence log unchanged, but
resets the current state to 0 (the initial state) instead of leaving it
unchanged. -/
theorem noEntryResetsToInitial (s : SwitchState) (event : Nat)
    (h : lookupTransition s.dimMode s.eventMode event s.currentState = none) :
    handleButtonEvent s event = { s with currentState := 0 } := by
  unfold handleButtonEvent getNextStateNumber
  rw [h]
  simp

/-- Witness for the amended C3 at a concrete input. -/
theorem noEntryResetsToInitial_witness :
    lookupTransition 0 0 0 2 = none ∧
    handleButtonEvent { demoState with dimMode := 0, dimIndex := 1, currentState := 2 } 0 =
      { demoState with dimMode := 0, dimIndex := 1, currentState := 0 } := by
  refine ⟨by decide, ?_⟩
  have h := noEntryResetsToInitial
    { demoState with dimMode := 0, dimIndex := 1, currentState := 2 } 0 (by decide)
  simpa using h

/-- Claim C4: the dim-step action wraps `dimIndex = levelCount` to 1
(never 0) for every levelCount ≥ 1; starting from any dim index in
[0, levelCount] the resulting dim index lies in [1, levelCount]; and the
new value is persisted to the state file exactly when dimMode is 2. -/
theorem dimStepWrap (s : SwitchState) (hL : 1 ≤ s.dimLevels)
    (h0 : 0 ≤ s.dimIndex) (_h1 : s.dimIndex ≤ (s.dimLevels : ℚ)) :
    (s.dimIndex = (s.dimLevels : ℚ) → (actionDim s).dimIndex = 1) ∧
    (1 ≤ (actionDim s).dimIndex ∧ (actionDim s).dimIndex ≤ (s.dimLevels : ℚ)) ∧
    (actionDim s).stateFileWrites =
      (if s.dimMode = 2 then s.stateFileWrites ++ [(actionDim s).dimIndex]
       else s.stateFileWrites) := by
  have hLQ : (1 : ℚ) ≤ (s.dimLevels : ℚ) := by exact_mod_cast hL
  refine ⟨?_, ?_, actionDim_writes s⟩
  · intro h
    rw [actionDim_dimIndex, if_pos (by linarith)]
  · rw [actionDim_dimIndex]
    split
    · exact ⟨le_refl 1, hLQ⟩
    · constructor <;> linarith

/-- Witness for C4: with 3 levels and dim index 3, a dim step wraps the
index to 1 and, in dimMode 2, persists it. -/
theorem dimStepWrap_witness :
    (actionDim { demoState with dimMode := 2, dimIndex := 3 }).dimIndex = 1 ∧
    (actionDim { demoState with dimMode := 2, dimIndex := 3 }).stateFileWrites = [1] := by
  have h := dimStepWrap { demoState with dimMode := 2, dimIndex := 3 }
    (by decide) (by with_unfolding_all decide) (by with_unfolding_all decide)
  obtain ⟨hwrap, -, hw⟩ := h
  have h1 : (actionDim { demoState with dimMode := 2, dimIndex := 3 }).dimIndex = 1 :=
    hwrap (by with_unfolding_all decide)
  refine ⟨h1, ?_⟩
  rw [hw, if_pos rfl, h1]
  rfl

/-- Counterexample to C5 as stated: with 3 levels, dim index 1 and
negative direction (dimStep -1/3), `actionOn` drives the light to 1,
while the specification formula 1 - (levelCount - dimIndex)/levelCount
gives 1/3. -/
theorem onRestoreSpecFormula_cex :
    (actionOn { demoState with dimStep := -(1 / 3), dimIndex := 1 }).lightValue = 1 ∧
    specOnValue (-1) 1 3 = 1 / 3 ∧
    ¬ (actionOn { demoState with dimStep := -(1 / 3), dimIndex := 1 }).lightValue =
      specOnValue (-1) 1 3 := by
  with_unfolding_all decide

/-- Claim C5 amended: for positive direction (dimStep = 1/levelCount)
the on-restore action drives the light to dimIndex/levelCount as the
specification says; for negative direction (dimStep = -1/levelCount) it
drives it to 1 - (dimIndex - 1)/levelCount, not to
1 - (levelCount - dimIndex)/levelCount. -/
theorem onRestoreValue (s : SwitchState) (L : Int) (hL : 1 ≤ L) :
    (s.dimStep = 1 / (L : ℚ) → (actionOn s).lightValue = s.dimIndex / (L : ℚ)) ∧
    (s.dimStep = -(1 / (L : ℚ)) →
      (actionOn s).lightValue = 1 - (s.dimIndex - 1) / (L : ℚ)) := by
  have hL0 : (0 : ℚ) < (L : ℚ) := by exact_mod_cast hL
  have hinv : (0 : ℚ) < 1 / (L : ℚ) := by positivity
  constructor
  · intro h
    have hpos : s.dimStep > 0 := by rw [h]; exact hinv
    show onValue s = _
    rw [onValue, if_pos hpos, h, mul_one_div]
  · intro h
    have hneg : ¬ s.dimStep > 0 := by rw [h]; linarith
    show onValue s = _
    rw [onValue, if_neg hneg, h]
    ring

/-- Witness for the amended C5: 3 levels, positive direction, dim index
2 restores the light to 2/3. -/
theorem onRestoreValue_witness :
    (actionOn { demoState with dimIndex := 2 }).lightValue = 2 / 3 := by
  have h := (onRestoreValue { demoState with dimIndex := 2 } 3 (by decide)).1
    (by with_unfolding_all decide)
  rw [h]
  with_unfolding_all decide

/-- Counterexample to C6 as stated: handling a press in dimMode 1,
eventMode 0, state 2 with dimIndex = levelCount = 3 runs only the off
action (action code 0), yet the dim index changes from 3 to 0 — so the
dim-step action and startup restoration are not the only mutators of the
dim index. -/
theorem dimIndexOnlyDimStep_cex :
    (handleButtonEvent { demoState with dimIndex := 3, currentState := 2 } 1).actionsRun
        = [0] ∧
    (handleButtonEvent { demoState with dimIndex := 3, currentState := 2 } 1).dimIndex
        = 0 ∧
    ¬ (handleButtonEvent { demoState with dimIndex := 3, currentState := 2 } 1).dimIndex
        = ({ demoState with dimIndex := 3, currentState := 2 } : SwitchState).dimIndex := by
  with_unfolding_all decide

/-- Claim C6 amended: the action functions themselves never mutate the
dim index — off and on-restore leave it unchanged (the none action runs
no code at all) — and an off action followed by on-restore reproduces
the pre-off brightness exactly, whatever the sign of dimStep; but at the
engine level the dynamic resolution of the sentinel in
`getNextStateNumber` additionally resets the dim index to 0 when it
resolves to an off state. -/
theorem actionsPreserveDimIndex (s : SwitchState) :
    (actionOff s).dimIndex = s.dimIndex ∧
    (actionOn s).dimIndex = s.dimIndex ∧
    (actionOn (actionOff s)).lightValue = (actionOn s).lightValue := by
  exact ⟨rfl, rfl, rfl⟩

/-- Counterexample to C7 as stated: in dimMode 2 with 3 levels, a stored
value of -1 is restored as dim index -1, outside [0, levelCount] — the
stored value is only clamped from above. -/
theorem restoreClamp_cex :
    (readStateFile { demoState with dimMode := 2 } (some (some (-1)))).dimIndex = -1 ∧
    ¬ (0 : ℚ) ≤ (readStateFile { demoState with dimMode := 2 }
        (some (some (-1)))).dimIndex := by
  with_unfolding_all decide

/-- Claim C7 amended: at startup with dimMode 2, a missing state file
defaults the dim index to levelCount (fully bright), a failing read is
non-fatal and leaves the state unchanged, and a stored value is clamped
from above to levelCount — but not from below, so negative stored values
are restored unchanged. -/
theorem restoreDimIndex (s : SwitchState) (h : s.dimMode = 2) :
    (readStateFile s none).dimIndex = (s.dimLevels : ℚ) ∧
    readStateFile s (some none) = s ∧
    (∀ v : ℚ,
      (readStateFile s (some (some v))).dimIndex =
        (if v > (s.dimLevels : ℚ) then (s.dimLevels : ℚ) else v) ∧
      (readStateFile s (some (some v))).dimIndex ≤ (s.dimLevels : ℚ)) := by
  have h2 : ¬ s.dimMode < 2 := by omega
  refine ⟨?_, ?_, ?_⟩
  · rw [readStateFile, if_neg h2]
  · rw [readStateFile, if_neg h2]
  · intro v
    rw [readStateFile, if_neg h2]
    refine ⟨rfl, ?_⟩
    dsimp only
    split_ifs with hv
    · exact le_refl _
    · exact not_lt.mp hv

/-- Witness for the amended C7 at concrete inputs. -/
theorem restoreDimIndex_witness :
    (readStateFile { demoState with dimMode := 2 } none).dimIndex = 3 ∧
    readStateFile { demoState with dimMode := 2 } (some none) =
      { demoState with dimMode := 2 } ∧
    (readStateFile { demoState with dimMode := 2 } (some (some 7))).dimIndex = 3 := by
  have h := restoreDimIndex { demoState with dimMode := 2 } (by decide)
  refine ⟨by rw [h.1]; with_unfolding_all decide, h.2.1, ?_⟩
  rw [(h.2.2 7).1]
  with_unfolding_all decide

/-- Claim C8: in dimMode 1 with eventMode press, 3 levels and positive
direction, the press/release sequence produced by four presses and a
fifth press drives the dim index through 0, 1, 2, 3, 0 (off) and back to
1, running the action functions dim, dim, dim, off, dim in that order
(releases run no action). -/
theorem pressCycleScenario :
    (List.scanl handleButtonEvent demoState [1, 0, 1, 0, 1, 0, 1, 0, 1]).map
        (fun s => s.dimIndex) = [0, 1, 1, 2, 2, 3, 3, 0, 0, 1] ∧
    (runEvents demoState [1, 0, 1, 0, 1, 0, 1, 0, 1]).actionsRun = [2, 2, 2, 0, 2] := by
  with_unfolding_all decide

/-- Counterexample to C9 as stated: a Dim configuration selecting
dimMode 1 with a configured level count of 0 is not rejected — it is
accepted with the level count silently replaced by the default 3. -/
theorem levelCountZeroAccepted_cex :
    ¬ getDimmingConfig [1, 0] initDimState = none ∧
    getDimmingConfig [1, 0] initDimState =
      some { dimMode := 1, dimLevels := 3, dimStep := 1 / 3, dimIndex := 0,
             dimHoldSec := 3 / 2 } := by
  constructor
  · intro h
    rw [show getDimmingConfig [1, 0] initDimState =
        some { dimMode := 1, dimLevels := 3, dimStep := 1 / 3, dimIndex := 0,
               dimHoldSec := 3 / 2 } from by with_unfolding_all decide] at h
    exact Option.noConfusion h
  · with_unfolding_all decide

/-- Claim C9 amended: a configured level count ≤ 1 (in particular ≤ 0)
does not cause a configuration failure — `getDimmingConfig` accepts it
and substitutes the default of 3 levels; a correction exponent below 1.0
does cause a configuration failure in `createAndConfigureLight`. -/
theorem configValidation (st : DimState) (m l : Int) (hm1 : 1 ≤ m) (hm2 : m ≤ 2)
    (hl : l ≤ 1) (p e : ℚ) (he : e < 1) :
    (∃ st', getDimmingConfig [m, l] st = some st' ∧ st'.dimLevels = 3) ∧
    createAndConfigureLight [p, e] = none := by
  have hrange : checkDimModeRange m = true := by
    rw [checkDimModeRange]
    split_ifs with h
    · omega
    · rfl
  have hcount : checkDimConfigParamCount m 2 = true := by
    rw [checkDimConfigParamCount]
    split_ifs with h
    · rcases h with h | h <;> omega
    · rfl
  have hm0 : ¬ m = 0 := by omega
  constructor
  · refine ⟨{ configureDimLevels [m, l] { st with dimMode := m } with
        dimHoldSec := 3 / 2 }, ?_, ?_⟩
    · unfold getDimmingConfig
      simp [hrange, hcount, hm0]
    · rw [configureDimLevels]
      simp [hl]
  · rw [createAndConfigureLight]
    simp [he]

/-- Witness for the amended C9 at concrete inputs: dimMode 1 with level
count 0 is accepted with 3 levels; exponent 1/2 is rejected. -/
theorem configValidation_witness :
    (∃ st', getDimmingConfig [1, 0] initDimState = some st' ∧ st'.dimLevels = 3) ∧
    createAndConfigureLight [18, 1 / 2] = none :=
  configValidation initDimState 1 0 (by decide) (by decide) (by decide) 18 (1 / 2)
    (by with_unfolding_all decide)

/-- Claim C10: with no Dim option configured, `initGPIO` leaves the
defaults dimMode 0, dimIndex 1, levelCount 1 and step +1.0, under which
the on-restore action always drives the light to exactly 1 (full
brightness); moreover in dimMode 0 no button event ever changes the dim
index or the step, so this holds for every on-restore the engine ever
runs in plain mode. -/
theorem plainModeFullBrightness (s : SwitchState) (event : Nat)
    (hd : s.dimMode = 0) (he : s.eventMode < 4) (hev : event < 3)
    (hc : s.currentState < 8) :
    (actionOn (initDimDefaults s)).lightValue = 1 ∧
    (handleButtonEvent s event).dimIndex = s.dimIndex ∧
    (handleButtonEvent s event).dimStep = s.dimStep := by
  constructor
  · show onValue (initDimDefaults s) = 1
    rw [onValue]
    norm_num [initDimDefaults]
  · obtain ⟨dm, em, lv, step, di, cs, light, wr, ar⟩ := s
    dsimp only at hd he hev hc ⊢
    subst hd
    interval_cases em <;> interval_cases event <;> interval_cases cs <;> exact ⟨rfl, rfl⟩

/-- Witness for C10 at a concrete input: plain-mode defaults with a
press event in the initial state. -/
theorem plainModeFullBrightness_witness :
    (actionOn (initDimDefaults { demoState with dimMode := 0 })).lightValue = 1 ∧
    (handleButtonEvent { demoState with dimMode := 0 } 1).dimIndex =
      ({ demoState with dimMode := 0 } : SwitchState).dimIndex ∧
    (handleButtonEvent { demoState with dimMode := 0 } 1).dimStep =
      ({ demoState with dimMode := 0 } : SwitchState).dimStep :=
  plainModeFullBrightness { demoState with dimMode := 0 } 1
    (by decide) (by decide) (by decide) (by decide)

end LightSwitch
